import Mathlib

/-!
Verification development for the `colour` colour-science repository.

The numeric code of the repository operates on floating-point numbers; it is
embedded here over the exact real numbers `ℝ` (respectively over `ℚ` where the
computation is purely rational), which is the idealised arithmetic the source
formulas denote.  Python's scalar power `**` is modelled by `Real.rpow`.
-/

namespace Colour

/-- Constant `REC_2020_CONSTANTS.alpha` from `colour/models/dataset/rec_2020.py`,
the Python lambda `1.099 if x else 1.0993` (argument `x` is the
`is_10_bits_system` flag). -/
noncomputable def REC_2020_CONSTANTS_alpha : Bool → ℝ
  | true => 1.099
  | false => 1.0993

/-- Constant `REC_2020_CONSTANTS.beta` from `colour/models/dataset/rec_2020.py`,
the Python lambda `0.018 if x else 0.0181`. -/
noncomputable def REC_2020_CONSTANTS_beta : Bool → ℝ
  | true => 0.018
  | false => 0.0181

/-- Linear branch `value * 4.5` of `_rec_2020_transfer_function`
(`rec_2020.py`, line 107). -/
noncomputable def rec_2020_tf_linear_branch (value : ℝ) : ℝ :=
  value * 4.5

/-- Power branch `alpha * value ** 0.45 - (alpha - 1)` of
`_rec_2020_transfer_function` (`rec_2020.py`, lines 109-111). -/
noncomputable def rec_2020_tf_power_branch (value : ℝ) (is_10_bits_system : Bool) : ℝ :=
  REC_2020_CONSTANTS_alpha is_10_bits_system * value ^ (0.45 : ℝ) -
    (REC_2020_CONSTANTS_alpha is_10_bits_system - 1)

/-- Embedding of `_rec_2020_transfer_function` from
`colour/models/dataset/rec_2020.py`, lines 84-111: the linear branch is taken
when `value < beta`, the power branch otherwise. -/
noncomputable def rec_2020_transfer_function (value : ℝ) (is_10_bits_system : Bool) : ℝ :=
  if value < REC_2020_CONSTANTS_beta is_10_bits_system then
    rec_2020_tf_linear_branch value
  else
    rec_2020_tf_power_branch value is_10_bits_system

/-- Linear branch `value / 4.5` of `_rec_2020_inverse_transfer_function`
(`rec_2020.py`, line 137). -/
noncomputable def rec_2020_itf_linear_branch (value : ℝ) : ℝ :=
  value / 4.5

/-- Power branch `((value + (alpha - 1)) / alpha) ** (1 / 0.45)` of
`_rec_2020_inverse_transfer_function` (`rec_2020.py`, lines 139-140). -/
noncomputable def rec_2020_itf_power_branch (value : ℝ) (is_10_bits_system : Bool) : ℝ :=
  ((value + (REC_2020_CONSTANTS_alpha is_10_bits_system - 1)) /
      REC_2020_CONSTANTS_alpha is_10_bits_system) ^ ((1 : ℝ) / 0.45)

/-- Embedding of `_rec_2020_inverse_transfer_function` from
`colour/models/dataset/rec_2020.py`, lines 114-140: the linear branch is taken
when `value < beta` (the source compares the companded value against `beta`
itself, not against `4.5 * beta`), the power branch otherwise. -/
noncomputable def rec_2020_inverse_transfer_function (value : ℝ) (is_10_bits_system : Bool) : ℝ :=
  if value < REC_2020_CONSTANTS_beta is_10_bits_system then
    rec_2020_itf_linear_branch value
  else
    rec_2020_itf_power_branch value is_10_bits_system

/-- A 3-component column vector with exact rational entries, modelling a
numpy shape-(3,) float array in exact arithmetic. -/
structure Vec3 where
  x : ℚ
  y : ℚ
  z : ℚ
deriving DecidableEq

/-- A 3x3 matrix with exact rational entries (row-major fields), modelling a
numpy shape-(3, 3) float array in exact arithmetic. -/
structure Mat3 where
  a11 : ℚ
  a12 : ℚ
  a13 : ℚ
  a21 : ℚ
  a22 : ℚ
  a23 : ℚ
  a31 : ℚ
  a32 : ℚ
  a33 : ℚ
deriving DecidableEq

/-- Matrix-vector product, modelling `np.dot` of a (3, 3) array with a
(3,) array. -/
def mulMV (m : Mat3) (v : Vec3) : Vec3 :=
  ⟨m.a11 * v.x + m.a12 * v.y + m.a13 * v.z,
   m.a21 * v.x + m.a22 * v.y + m.a23 * v.z,
   m.a31 * v.x + m.a32 * v.y + m.a33 * v.z⟩

/-- Matrix-matrix product, modelling `np.dot` of two (3, 3) arrays. -/
def mulMM (a b : Mat3) : Mat3 :=
  ⟨a.a11 * b.a11 + a.a12 * b.a21 + a.a13 * b.a31,
   a.a11 * b.a12 + a.a12 * b.a22 + a.a13 * b.a32,
   a.a11 * b.a13 + a.a12 * b.a23 + a.a13 * b.a33,
   a.a21 * b.a11 + a.a22 * b.a21 + a.a23 * b.a31,
   a.a21 * b.a12 + a.a22 * b.a22 + a.a23 * b.a32,
   a.a21 * b.a13 + a.a22 * b.a23 + a.a23 * b.a33,
   a.a31 * b.a11 + a.a32 * b.a21 + a.a33 * b.a31,
   a.a31 * b.a12 + a.a32 * b.a22 + a.a33 * b.a32,
   a.a31 * b.a13 + a.a32 * b.a23 + a.a33 * b.a33⟩

/-- Determinant of a 3x3 matrix. -/
def det3 (m : Mat3) : ℚ :=
  m.a11 * (m.a22 * m.a33 - m.a23 * m.a32) -
    m.a12 * (m.a21 * m.a33 - m.a23 * m.a31) +
    m.a13 * (m.a21 * m.a32 - m.a22 * m.a31)

/-- Exact-arithmetic model of `np.linalg.inv` on a 3x3 array: the adjugate
divided by the determinant (numpy raises `LinAlgError` on a singular matrix;
over `ℚ`, division by the zero determinant yields junk entries there, and the
matrices this development applies `inv3` to are proved nonsingular). -/
def inv3 (m : Mat3) : Mat3 :=
  let d := det3 m
  ⟨(m.a22 * m.a33 - m.a23 * m.a32) / d,
   -(m.a12 * m.a33 - m.a13 * m.a32) / d,
   (m.a12 * m.a23 - m.a13 * m.a22) / d,
   -(m.a21 * m.a33 - m.a23 * m.a31) / d,
   (m.a11 * m.a33 - m.a13 * m.a31) / d,
   -(m.a11 * m.a23 - m.a13 * m.a21) / d,
   (m.a21 * m.a32 - m.a22 * m.a31) / d,
   -(m.a11 * m.a32 - m.a12 * m.a31) / d,
   (m.a11 * m.a22 - m.a12 * m.a21) / d⟩

/-- The 3x3 identity matrix. -/
def id3 : Mat3 :=
  ⟨1, 0, 0, 0, 1, 0, 0, 0, 1⟩

/-- Chromaticity coordinates `(x, y)` lifted to a tristimulus vector with unit
luminance: `(x / y, 1, (1 - x - y) / y)`. -/
def xy_to_XYZ (c : ℚ × ℚ) : Vec3 :=
  ⟨c.1 / c.2, 1, (1 - c.1 - c.2) / c.2⟩

/-- Constant `REC_2020_PRIMARIES` from `colour/models/dataset/rec_2020.py`,
lines 42-45: the chromaticity coordinates of the red, green and blue
primaries. -/
def REC_2020_PRIMARIES : (ℚ × ℚ) × (ℚ × ℚ) × (ℚ × ℚ) :=
  ((0.708, 0.292), (0.170, 0.797), (0.131, 0.046))

/-- Modelled from the spec: `REC_2020_WHITEPOINT` is
`ILLUMINANTS['CIE 1931 2 Degree Standard Observer']['D65']`, whose dataset
(`colour.colorimetry`) is not under src/.  The spec describes colourspace
records as carrying a whitepoint; the CIE D65 chromaticity coordinates for the
2-degree observer are used. -/
def REC_2020_WHITEPOINT : ℚ × ℚ :=
  (0.31271, 0.32902)

/-- Modelled from the spec: `normalised_primary_matrix` (`colour.models`) is
imported by `rec_2020.py` but its source is not under src/.  The spec describes
the colourspace record's basis-change matrix built from primaries and
whitepoint; the standard construction lifts each primary chromaticity to a
unit-luminance tristimulus column and scales the columns so that the matrix
maps (1, 1, 1) to the whitepoint tristimulus. -/
def normalised_primary_matrix (p : (ℚ × ℚ) × (ℚ × ℚ) × (ℚ × ℚ)) (w : ℚ × ℚ) : Mat3 :=
  let r := xy_to_XYZ p.1
  let g := xy_to_XYZ p.2.1
  let b := xy_to_XYZ p.2.2
  let P : Mat3 := ⟨r.x, g.x, b.x, r.y, g.y, b.y, r.z, g.z, b.z⟩
  let s := mulMV (inv3 P) (xy_to_XYZ w)
  ⟨P.a11 * s.x, P.a12 * s.y, P.a13 * s.z,
   P.a21 * s.x, P.a22 * s.y, P.a23 * s.z,
   P.a31 * s.x, P.a32 * s.y, P.a33 * s.z⟩

/-- Constant `REC_2020_TO_XYZ_MATRIX` from `rec_2020.py`, lines 60-61. -/
def REC_2020_TO_XYZ_MATRIX : Mat3 :=
  normalised_primary_matrix REC_2020_PRIMARIES REC_2020_WHITEPOINT

/-- Constant `XYZ_TO_REC_2020_MATRIX` from `rec_2020.py`, line 68:
`np.linalg.inv(REC_2020_TO_XYZ_MATRIX)`. -/
def XYZ_TO_REC_2020_MATRIX : Mat3 :=
  inv3 REC_2020_TO_XYZ_MATRIX

/-- A 3-component vector of real numbers, modelling a numpy shape-(3,) float
array in exact arithmetic. -/
structure RVec3 where
  x : ℝ
  y : ℝ
  z : ℝ

/-- A 3x3 matrix of real numbers (row-major fields). -/
structure RMat3 where
  a11 : ℝ
  a12 : ℝ
  a13 : ℝ
  a21 : ℝ
  a22 : ℝ
  a23 : ℝ
  a31 : ℝ
  a32 : ℝ
  a33 : ℝ

/-- Constant `M_XYZ_TO_RGB_OSA_UCS` from `colour/models/osa_ucs.py`,
lines 46-50. -/
noncomputable def M_XYZ_TO_RGB_OSA_UCS : RMat3 :=
  ⟨0.799, 0.4194, -0.1648,
   -0.4493, 1.3265, 0.0927,
   -0.1149, 0.3394, 0.717⟩

/-- Modelled from the spec: `dot_vector` (`colour.utilities`) is imported by
`osa_ucs.py` but its source is not under src/.  Per the spec's description of
the conversions as matrix transforms over tristimulus vectors, it is the
matrix-vector product (numpy einsum `...ij,...j`). -/
noncomputable def dot_vector (m : RMat3) (v : RVec3) : RVec3 :=
  ⟨m.a11 * v.x + m.a12 * v.y + m.a13 * v.z,
   m.a21 * v.x + m.a22 * v.y + m.a23 * v.z,
   m.a31 * v.x + m.a32 * v.y + m.a33 * v.z⟩

/-- Modelled from the spec: `XYZ_to_xyY` (`colour.models`) is imported by
`osa_ucs.py` but its source is not under src/.  Per the spec's description of
pure tristimulus conversions, it is the standard CIE chromaticity projection
`x = X / (X + Y + Z)`, `y = Y / (X + Y + Z)` with the luminance `Y` carried
through as the third component. -/
noncomputable def XYZ_to_xyY (XYZ : RVec3) : RVec3 :=
  ⟨XYZ.x / (XYZ.x + XYZ.y + XYZ.z), XYZ.y / (XYZ.x + XYZ.y + XYZ.z), XYZ.y⟩

/-- Body of `XYZ_to_OSA_UCS` from `colour/models/osa_ucs.py`, lines 97-116,
abstracted over the module-level matrix it reads (`M_XYZ_TO_RGB_OSA_UCS`).
Python float powers `** (1 / 3)`, `** 0.45` and `** (1 / 2)` are modelled by
`Real.rpow`; `np.sign` by `Real.sign`; `np.abs` by `abs`. -/
noncomputable def XYZ_to_OSA_UCS_with (M : RMat3) (XYZ : RVec3) : RVec3 :=
  let xyY := XYZ_to_xyY XYZ
  let x := xyY.x
  let y := xyY.y
  let Y := xyY.z
  let Y_0 := Y * (4.4934 * x ^ 2 + 4.3034 * y ^ 2 - 4.276 * x * y - 1.3744 * x -
      2.5643 * y + 1.8103)
  let Y_0_es := Y_0 ^ ((1 : ℝ) / 3) - 2 / 3
  let Y_0_s := Y_0 - 30
  let Lambda := 5.9 * (Y_0_es + Real.sign Y_0_s * 0.042 * |Y_0_s| ^ ((1 : ℝ) / 3))
  let RGB := dot_vector M XYZ
  let R_3 := RGB.x ^ ((1 : ℝ) / 3)
  let G_3 := RGB.y ^ ((1 : ℝ) / 3)
  let B_3 := RGB.z ^ ((1 : ℝ) / 3)
  let C := Lambda / (5.9 * Y_0_es)
  let L := (Lambda - 14.4) / (2 : ℝ) ^ ((1 : ℝ) / 2)
  let j := C * (1.7 * R_3 + 8 * G_3 - 9.7 * B_3)
  let g := C * (-13.7 * R_3 + 17.7 * G_3 - 4 * B_3)
  ⟨L, j, g⟩

/-- Embedding of `XYZ_to_OSA_UCS` from `colour/models/osa_ucs.py`,
lines 59-116, for a single tristimulus triplet. -/
noncomputable def XYZ_to_OSA_UCS (XYZ : RVec3) : RVec3 :=
  XYZ_to_OSA_UCS_with M_XYZ_TO_RGB_OSA_UCS XYZ

/-- Euclidean norm of a 3-vector, modelling `np.linalg.norm` on a shape-(3,)
array. -/
noncomputable def norm3 (v : RVec3) : ℝ :=
  Real.sqrt (v.x ^ 2 + v.y ^ 2 + v.z ^ 2)

/-- The inner `function_error` of `OSA_UCS_to_XYZ` (`osa_ucs.py`,
lines 171-176): the norm of `XYZ_to_OSA_UCS(XYZ) - Ljg`, abstracted over the
module matrix. -/
noncomputable def function_error_with (M : RMat3) (XYZ Ljg : RVec3) : ℝ :=
  norm3 ⟨(XYZ_to_OSA_UCS_with M XYZ).x - Ljg.x,
         (XYZ_to_OSA_UCS_with M XYZ).y - Ljg.y,
         (XYZ_to_OSA_UCS_with M XYZ).z - Ljg.z⟩

/-- The module-level colourimetric dataset constants of the two model modules,
gathered as the mutable global store that the conversion functions can read
(and could in principle write).  This is the state threaded through the
state-transformer embeddings below. -/
structure ModuleState where
  M_XYZ_TO_RGB_OSA_UCS : RMat3
  REC_2020_PRIMARIES : (ℚ × ℚ) × (ℚ × ℚ) × (ℚ × ℚ)
  REC_2020_TO_XYZ_MATRIX : Mat3
  XYZ_TO_REC_2020_MATRIX : Mat3

/-- The module state as constructed once at module load time: each constant
holds the value its defining module-level statement computes. -/
noncomputable def initModuleState : ModuleState :=
  ⟨M_XYZ_TO_RGB_OSA_UCS, REC_2020_PRIMARIES, REC_2020_TO_XYZ_MATRIX, XYZ_TO_REC_2020_MATRIX⟩

/-- State-transformer embedding of `XYZ_to_OSA_UCS`: the body reads the
module-level constant `M_XYZ_TO_RGB_OSA_UCS` from the global store and contains
no assignment to any module-level name, so the store it returns is the store it
was given. -/
noncomputable def XYZ_to_OSA_UCS_st (s : ModuleState) (XYZ : RVec3) : ModuleState × RVec3 :=
  (s, XYZ_to_OSA_UCS_with s.M_XYZ_TO_RGB_OSA_UCS XYZ)

/-- State-transformer embedding of `OSA_UCS_to_XYZ` (`osa_ucs.py`,
lines 119-184) for a single triplet, abstracted over the external optimiser
`scipy.optimize.fmin` (a function of the error function and the starting
point `x_0 = (30, 30, 30)`).  The body reads `M_XYZ_TO_RGB_OSA_UCS` through
the error function and assigns no module-level name. -/
noncomputable def OSA_UCS_to_XYZ_st (fmin : (RVec3 → ℝ) → RVec3 → RVec3)
    (s : ModuleState) (Ljg : RVec3) : ModuleState × RVec3 :=
  (s, fmin (fun XYZ => function_error_with s.M_XYZ_TO_RGB_OSA_UCS XYZ Ljg) ⟨30, 30, 30⟩)

/-- State-transformer embedding of `_rec_2020_transfer_function`: the body
reads only the `REC_2020_CONSTANTS` closure values and assigns no module-level
name. -/
noncomputable def rec_2020_transfer_function_st (s : ModuleState) (value : ℝ)
    (is_10_bits_system : Bool) : ModuleState × ℝ :=
  (s, rec_2020_transfer_function value is_10_bits_system)

/-- State-transformer embedding of `_rec_2020_inverse_transfer_function`. -/
noncomputable def rec_2020_inverse_transfer_function_st (s : ModuleState) (value : ℝ)
    (is_10_bits_system : Bool) : ModuleState × ℝ :=
  (s, rec_2020_inverse_transfer_function value is_10_bits_system)

/-- Exception-aware model of `_rec_2020_transfer_function`: `none` marks the
only operation in the body that can raise for a numeric scalar input, the
Python float power `value ** 0.45`, which raises `ValueError` exactly when its
base is negative (the exponent being fractional); every other arithmetic
operation in the body is total. -/
noncomputable def rec_2020_transfer_function_opt (value : ℝ) (is_10_bits_system : Bool) :
    Option ℝ :=
  if value < REC_2020_CONSTANTS_beta is_10_bits_system then
    some (rec_2020_tf_linear_branch value)
  else if value < 0 then none
  else some (rec_2020_tf_power_branch value is_10_bits_system)

/-- Exception-aware model of `_rec_2020_inverse_transfer_function`: `none`
marks the Python float power `(...) ** (1 / 0.45)` raising on a negative
base; every other operation in the body is total. -/
noncomputable def rec_2020_inverse_transfer_function_opt (value : ℝ)
    (is_10_bits_system : Bool) : Option ℝ :=
  if value < REC_2020_CONSTANTS_beta is_10_bits_system then
    some (rec_2020_itf_linear_branch value)
  else if (value + (REC_2020_CONSTANTS_alpha is_10_bits_system - 1)) /
      REC_2020_CONSTANTS_alpha is_10_bits_system < 0 then none
  else some (rec_2020_itf_power_branch value is_10_bits_system)

/-- Exception-aware model of `XYZ_to_OSA_UCS` on a shape-(3,) input: the body
is a chain of numpy array operations (`**`, `np.dot`, `np.sign`, `np.abs`,
arithmetic, `tsplit`, `tstack`), none of which raises on a float array of the
correct shape (numpy yields `nan`/`inf` with a warning for fractional powers
of negative values and for division by zero, rather than raising), so no
input of valid shape maps to `none`. -/
noncomputable def XYZ_to_OSA_UCS_opt (XYZ : RVec3) : Option RVec3 :=
  some (XYZ_to_OSA_UCS XYZ)

/-- A numpy ndarray modelled as a shape together with the row-major flat list
of its elements; a well-formed array has `data.length = shape.prod`. -/
structure NdArray (α : Type) where
  shape : List Nat
  data : List α

/-- Row-major grouping of a flat list into consecutive triplets, modelling the
rows of `Ljg.reshape((-1, 3))`; a trailing remainder of fewer than three
elements is dropped (it cannot occur when 3 divides the length). -/
def chunk3 {α : Type} : List α → List (α × α × α)
  | a :: b :: c :: rest => (a, b, c) :: chunk3 rest
  | _ => []

/-- Row-major flattening of a list of triplets back into a flat list,
modelling the reshape of the stacked (n, 3) optimisation results. -/
def flatten3 {α : Type} (l : List (α × α × α)) : List α :=
  (l.map (fun t => [t.1, t.2.1, t.2.2])).flatten

/-- Model of `ndarray.reshape(shape)` with an explicit target shape: numpy
raises `ValueError` unless the total number of elements matches the target
shape's product. -/
def reshape {α : Type} (A : NdArray α) (new : List Nat) : Option (NdArray α) :=
  if A.data.length = new.prod then some ⟨new, A.data⟩ else none

/-- Embedding of `OSA_UCS_to_XYZ` from `colour/models/osa_ucs.py`,
lines 163-184, on an ndarray: the input is reshaped to an (n, 3) list of
triplets (`reshape((-1, 3))`, which raises unless 3 divides the element
count), each triplet is optimised independently by the external
`scipy.optimize.fmin` (abstracted as `fmin`, which returns a point of the same
dimension as the starting point `x_0 = (30, 30, 30)`), and the stacked result
is reshaped back to the original input shape. -/
def OSA_UCS_to_XYZ_nd {α : Type} (fmin : α × α × α → α × α × α) (Ljg : NdArray α) :
    Option (NdArray α) :=
  let shape := Ljg.shape
  if 3 ∣ Ljg.data.length then
    let rows := chunk3 Ljg.data
    let XYZ := flatten3 (rows.map fmin)
    reshape ⟨[rows.length, 3], XYZ⟩ shape
  else none

/-- Action argument of `warnings.filterwarnings` as used by
`filter_warnings` (`verbose.py`, lines 176-178). -/
inductive FilterAction
  | ignore
  | default
deriving DecidableEq

/-- Warning category argument of `warnings.filterwarnings` as used by
`filter_warnings`: the library's `ColourWarning` or the base `Warning`. -/
inductive WarningCategory
  | ColourWarning
  | Warning
deriving DecidableEq

/-- A `warnings.filters` entry as installed by `filterwarnings`. -/
structure FilterEntry where
  action : FilterAction
  category : WarningCategory
deriving DecidableEq

/-- A reference to a Python list object in the heap of list objects. -/
abbrev ListRef := Nat

/-- The Python global state touched by the verbose utilities, with Python
reference semantics for the filter list: `warnings_filters` is a reference to
a mutable list object living in `list_heap`, so that binding
`warnings.filters` to a local name saves an alias to the object, not a copy
of its contents.  `warnings.showwarning` (a function object the code here
only ever rebinds) and the numpy print-option record (returned by value from
`np.get_printoptions`) are abstract value types. -/
structure PyGlobalState (W P : Type) where
  list_heap : ListRef → List FilterEntry
  warnings_filters : ListRef
  warnings_showwarning : W
  numpy_printoptions : P

/-- The contents of the `warnings.filters` list as Python code observes them:
the list object currently bound to `warnings.filters`, read from the heap. -/
def filters_contents {W P : Type} (s : PyGlobalState W P) : List FilterEntry :=
  s.list_heap s.warnings_filters

/-- Embedding of `filter_warnings` from `colour/utilities/verbose.py`,
lines 148-180: the stdlib `warnings.filterwarnings` inserts an `'ignore'`
(or `'default'`) filter for `ColourWarning` (or `Warning`) at index 0 of the
list object bound to `warnings.filters`, mutating that object in place, and
the function returns `True`. -/
def filter_warnings {W P : Type} (state : Bool) (colour_warnings_only : Bool)
    (s : PyGlobalState W P) : PyGlobalState W P × Bool :=
  let entry : FilterEntry :=
    ⟨if state then FilterAction.ignore else FilterAction.default,
     if colour_warnings_only then WarningCategory.ColourWarning else
       WarningCategory.Warning⟩
  ({ s with list_heap := fun r =>
      if r = s.warnings_filters then entry :: s.list_heap r else s.list_heap r }, true)

/-- Embedding of the context manager `suppress_warnings` (`verbose.py`,
lines 183-204): the `with`-block body is a state transformer that either
returns a value or raises (`Except`).  The manager binds the local names
`filters = warnings.filters` (an alias to the list object, per Python
reference semantics) and `show_warnings = warnings.showwarning`, calls
`filter_warnings` (which mutates that same list object in place), runs the
body, and in a `finally` block reassigns the two saved references to the
module attributes before propagating the body's outcome. -/
def suppress_warnings {W P E A : Type} (colour_warnings_only : Bool)
    (body : PyGlobalState W P → PyGlobalState W P × Except E A)
    (s : PyGlobalState W P) : PyGlobalState W P × Except E A :=
  let filters := s.warnings_filters
  let show_warnings := s.warnings_showwarning
  let s1 := (filter_warnings true colour_warnings_only s).1
  let r := body s1
  ({ r.1 with warnings_filters := filters, warnings_showwarning := show_warnings }, r.2)

/-- Embedding of the context manager `numpy_print_options` (`verbose.py`,
lines 207-233): saves the complete print-option record
(`np.get_printoptions()`), applies the caller's option update
(`np.set_printoptions(*args, **kwargs)`), runs the body, and in a `finally`
block restores the full saved record (`np.set_printoptions(**options)`)
before propagating the body's outcome. -/
def numpy_print_options {W P E A : Type} (set_options : P → P)
    (body : PyGlobalState W P → PyGlobalState W P × Except E A)
    (s : PyGlobalState W P) : PyGlobalState W P × Except E A :=
  let options := s.numpy_printoptions
  let s1 := { s with numpy_printoptions := set_options s.numpy_printoptions }
  let r := body s1
  ({ r.1 with numpy_printoptions := options }, r.2)

/-- Python strings modelled as lists of characters. -/
abbrev PyStr := List Char

/-- Model of `str.split(sep)` for a one-character separator: splits at every
occurrence and keeps empty segments, so the empty string splits to one empty
segment (Python semantics). -/
def pySplit (sep : Char) : PyStr → List PyStr
  | [] => [[]]
  | c :: rest =>
    match pySplit sep rest with
    | [] => [[]]
    | l :: ls => if c = sep then [] :: l :: ls else (c :: l) :: ls

/-- Model of `str.expandtabs()` with the default tab size 8: a tab becomes
the spaces filling up to the next multiple-of-8 column; newline and carriage
return reset the column counter; the first argument tracks the current
column. -/
def expandtabs : Nat → PyStr → PyStr
  | _, [] => []
  | col, c :: rest =>
    if c = '\t' then
      List.replicate (8 - col % 8) ' ' ++ expandtabs (col + (8 - col % 8)) rest
    else if c = '\n' ∨ c = '\r' then
      c :: expandtabs 0 rest
    else
      c :: expandtabs (col + 1) rest

/-- The `inner` helper of `message_box` (`verbose.py`, lines 96-102): the
format `'*{0}{1}{2}{0}*'` with the padding, the text, and the fill
`' ' * (width - len(text) - padding * 2 - 2)` (Python's `' ' * n` is empty for
negative `n`, which truncated `Nat` subtraction matches). -/
def inner (width padding : Nat) (text : PyStr) : PyStr :=
  ['*'] ++ List.replicate padding ' ' ++ text ++
    List.replicate (width - text.length - padding * 2 - 2) ' ' ++
    List.replicate padding ' ' ++ ['*']

/-- Embedding of `message_box` from `colour/utilities/verbose.py`,
lines 40-117, abstracted over the stdlib
`TextWrapper(width=ideal_width, break_long_words=False,
replace_whitespace=False).wrap` (parameter `wrap`).  Printing is modelled by
collecting the printed lines in order; the returned `True` is the second
component.  A message line wrapping to an empty list is replaced by the
string `' '` (the source's `' ' if len(line) == 0 else line`), which
`chain(*lines)` then iterates as the single one-character string. -/
def message_box (wrap : PyStr → List PyStr) (message : PyStr) (width padding : Nat) :
    List PyStr × Bool :=
  let border := List.replicate width '='
  let wrapped := (pySplit '\n' message).map wrap
  let lines := wrapped.map (fun line => if line.length = 0 then [[' ']] else line)
  let body := lines.flatten.map (fun line => inner width padding (expandtabs 0 line))
  (border :: inner width padding [] :: (body ++ [inner width padding [], border]), true)

theorem rpow_045_pow_twenty (x : ℝ) (hx : 0 ≤ x) :
    (x ^ (0.45 : ℝ)) ^ (20 : ℕ) = x ^ (9 : ℕ) := by
  rw [← Real.rpow_natCast (x ^ (0.45 : ℝ)) 20, ← Real.rpow_mul hx]
  have h : (0.45 : ℝ) * ((20 : ℕ) : ℝ) = ((9 : ℕ) : ℝ) := by norm_num
  rw [h, Real.rpow_natCast]

theorem rpow_inv045_pow_nine (x : ℝ) (hx : 0 ≤ x) :
    (x ^ ((1 : ℝ) / 0.45)) ^ (9 : ℕ) = x ^ (20 : ℕ) := by
  rw [← Real.rpow_natCast (x ^ ((1 : ℝ) / 0.45)) 9, ← Real.rpow_mul hx]
  have h : (1 : ℝ) / 0.45 * ((9 : ℕ) : ℝ) = ((20 : ℕ) : ℝ) := by norm_num
  rw [h, Real.rpow_natCast]

theorem itf_power_branch_beta10_gt :
    (0.006 : ℝ) < rec_2020_itf_power_branch 0.018 true := by
  have hb : ((0.018 : ℝ) + (REC_2020_CONSTANTS_alpha true - 1)) /
      REC_2020_CONSTANTS_alpha true = 117 / 1099 := by
    norm_num [REC_2020_CONSTANTS_alpha]
  unfold rec_2020_itf_power_branch
  rw [hb]
  have h9 : (0.006 : ℝ) ^ (9 : ℕ) < ((117 / 1099 : ℝ) ^ ((1 : ℝ) / 0.45)) ^ (9 : ℕ) := by
    rw [rpow_inv045_pow_nine _ (by norm_num)]
    norm_num
  exact lt_of_pow_lt_pow_left₀ 9 (Real.rpow_nonneg (by norm_num) _) h9

theorem t018_lower : (0.1629 : ℝ) < (0.018 : ℝ) ^ (0.45 : ℝ) := by
  apply lt_of_pow_lt_pow_left₀ 20 (Real.rpow_nonneg (by norm_num) _)
  rw [rpow_045_pow_twenty _ (by norm_num)]
  norm_num

theorem t018_upper : (0.018 : ℝ) ^ (0.45 : ℝ) < 0.1646 := by
  apply lt_of_pow_lt_pow_left₀ 20 (by norm_num : (0 : ℝ) ≤ 0.1646)
  rw [rpow_045_pow_twenty _ (by norm_num)]
  norm_num

theorem t0181_lower : (0.1636 : ℝ) < (0.0181 : ℝ) ^ (0.45 : ℝ) := by
  apply lt_of_pow_lt_pow_left₀ 20 (Real.rpow_nonneg (by norm_num) _)
  rw [rpow_045_pow_twenty _ (by norm_num)]
  norm_num

theorem t0181_upper : (0.0181 : ℝ) ^ (0.45 : ℝ) < 0.1652 := by
  apply lt_of_pow_lt_pow_left₀ 20 (by norm_num : (0 : ℝ) ≤ 0.1652)
  rw [rpow_045_pow_twenty _ (by norm_num)]
  norm_num

/-- C1: the claim states that composing `REC_2020_TRANSFER_FUNCTION` with
`REC_2020_INVERSE_TRANSFER_FUNCTION` approximately recovers every linear value
in [0, 1].  The code violates this: for the linear value `0.004` with
`is_10_bits_system = true`, the transfer function yields `0.018`, which the
inverse then routes into the power branch (its breakpoint test compares the
companded value against `beta` instead of `4.5 * beta`), yielding a value
greater than `0.006`, more than `1/500` away from the original `0.004`. -/
theorem rec_2020_roundtrip_deviates :
    rec_2020_inverse_transfer_function (rec_2020_transfer_function 0.004 true) true - 0.004 >
      1 / 500 := by
  have hβt : REC_2020_CONSTANTS_beta true = 0.018 := rfl
  have hfwd : rec_2020_transfer_function (0.004 : ℝ) true = 0.018 := by
    unfold rec_2020_transfer_function
    rw [if_pos (show (0.004 : ℝ) < REC_2020_CONSTANTS_beta true by rw [hβt]; norm_num)]
    unfold rec_2020_tf_linear_branch
    norm_num
  rw [hfwd]
  have hinv : rec_2020_inverse_transfer_function (0.018 : ℝ) true =
      rec_2020_itf_power_branch 0.018 true := by
    unfold rec_2020_inverse_transfer_function
    rw [if_neg (show ¬(0.018 : ℝ) < REC_2020_CONSTANTS_beta true by rw [hβt]; norm_num)]
  rw [hinv]
  have h := itf_power_branch_beta10_gt
  linarith

/-- C2: the claim states that both the transfer function and the inverse
transfer function have linear and power branches that agree at the breakpoint
`beta`, for either flag value.  The forward transfer function does (the
branches differ by less than `1/1000` at `beta` for both flags), but the code
violates the claim for the inverse transfer function: at its breakpoint `beta`
the power branch exceeds the linear branch by more than `1/500` (the source's
breakpoint for the inverse should be `4.5 * beta`, the companded image of
`beta`, not `beta` itself). -/
theorem rec_2020_breakpoint_continuity_status :
    |rec_2020_tf_linear_branch (REC_2020_CONSTANTS_beta true) -
        rec_2020_tf_power_branch (REC_2020_CONSTANTS_beta true) true| < 1 / 1000 ∧
    |rec_2020_tf_linear_branch (REC_2020_CONSTANTS_beta false) -
        rec_2020_tf_power_branch (REC_2020_CONSTANTS_beta false) false| < 1 / 1000 ∧
    rec_2020_itf_power_branch (REC_2020_CONSTANTS_beta true) true -
        rec_2020_itf_linear_branch (REC_2020_CONSTANTS_beta true) > 1 / 500 := by
  have hβt : REC_2020_CONSTANTS_beta true = 0.018 := rfl
  have hβf : REC_2020_CONSTANTS_beta false = 0.0181 := rfl
  have hαt : REC_2020_CONSTANTS_alpha true = 1.099 := rfl
  have hαf : REC_2020_CONSTANTS_alpha false = 1.0993 := rfl
  refine ⟨?_, ?_, ?_⟩
  · have h1 := t018_lower
    have h2 := t018_upper
    rw [hβt]
    unfold rec_2020_tf_linear_branch rec_2020_tf_power_branch
    rw [hαt, abs_lt]
    constructor <;> linarith
  · have h1 := t0181_lower
    have h2 := t0181_upper
    rw [hβf]
    unfold rec_2020_tf_linear_branch rec_2020_tf_power_branch
    rw [hαf, abs_lt]
    constructor <;> linarith
  · have h := itf_power_branch_beta10_gt
    rw [hβt]
    unfold rec_2020_itf_linear_branch
    linarith

/-- C4: the Rec. 2020 basis-change matrices satisfy the linear-algebra
conformance invariant: `REC_2020_TO_XYZ_MATRIX` is invertible (nonzero
determinant) and `XYZ_TO_REC_2020_MATRIX`, defined in the source as
`np.linalg.inv(REC_2020_TO_XYZ_MATRIX)`, is its matrix inverse, their product
being the 3x3 identity (exactly, in the exact-arithmetic model, hence within
any numeric tolerance). -/
theorem rec_2020_matrices_are_inverses :
    det3 REC_2020_TO_XYZ_MATRIX ≠ 0 ∧
    mulMM XYZ_TO_REC_2020_MATRIX REC_2020_TO_XYZ_MATRIX = id3 := by
  constructor
  · norm_num [REC_2020_TO_XYZ_MATRIX, XYZ_TO_REC_2020_MATRIX, normalised_primary_matrix,
      REC_2020_PRIMARIES, REC_2020_WHITEPOINT, xy_to_XYZ, inv3, det3, mulMV]
  · norm_num [REC_2020_TO_XYZ_MATRIX, XYZ_TO_REC_2020_MATRIX, normalised_primary_matrix,
      REC_2020_PRIMARIES, REC_2020_WHITEPOINT, xy_to_XYZ, inv3, det3, mulMV, mulMM, id3,
      Mat3.mk.injEq]

theorem flatten3_length {α : Type} : ∀ l : List (α × α × α),
    (flatten3 l).length = 3 * l.length
  | [] => rfl
  | t :: rest => by
    show ([t.1, t.2.1, t.2.2] ++ flatten3 rest).length = 3 * (rest.length + 1)
    rw [List.length_append, flatten3_length rest]
    simp only [List.length_cons, List.length_nil]
    omega

theorem chunk3_length_mul {α : Type} : ∀ l : List α, 3 ∣ l.length →
    (chunk3 l).length * 3 = l.length
  | [], _ => rfl
  | [_], h => by
    simp only [List.length_singleton] at h
    omega
  | [_, _], h => by
    simp only [List.length_cons, List.length_nil] at h
    omega
  | a :: b :: c :: rest, h => by
    have hr : 3 ∣ rest.length := by
      simp only [List.length_cons] at h
      omega
    have ih := chunk3_length_mul rest hr
    simp only [chunk3, List.length_cons]
    omega

theorem OSA_UCS_to_XYZ_nd_succeeds {α : Type} (fmin : α × α × α → α × α × α)
    (Ljg : NdArray α) (hwf : Ljg.data.length = Ljg.shape.prod)
    (h3 : 3 ∣ Ljg.data.length) :
    OSA_UCS_to_XYZ_nd fmin Ljg =
      some ⟨Ljg.shape, flatten3 ((chunk3 Ljg.data).map fmin)⟩ := by
  have hlen : (flatten3 ((chunk3 Ljg.data).map fmin)).length = Ljg.shape.prod := by
    rw [flatten3_length, List.length_map, ← hwf, ← chunk3_length_mul Ljg.data h3]
    ring
  simp only [OSA_UCS_to_XYZ_nd, reshape]
  rw [if_pos h3, if_pos hlen]

/-- C5: on inputs of valid shape whose values lie in the documented domains
([0, 1] for the transfer-function pair, [0, 100] per component for
`XYZ_to_OSA_UCS`), every conversion returns a result and no exception is
raised: each exception-aware model returns `some` of the pure function's
value, and `OSA_UCS_to_XYZ` — whose wrong-shape failure path is
`reshape((-1, 3))`, modelled by the `Option` result of `OSA_UCS_to_XYZ_nd` —
succeeds on every well-formed array of valid shape (element count a multiple
of 3), whatever its values.  (The only raising operation reachable in the
scalar bodies is a Python float power with negative base, and on the power
branch the base is bounded below by the positive `beta`, respectively by
`beta` shifted and scaled by the positive `alpha`.) -/
theorem conversions_total_on_valid_domain :
    (∀ (value : ℝ) (b : Bool), 0 ≤ value → value ≤ 1 →
      rec_2020_transfer_function_opt value b = some (rec_2020_transfer_function value b)) ∧
    (∀ (value : ℝ) (b : Bool), 0 ≤ value → value ≤ 1 →
      rec_2020_inverse_transfer_function_opt value b =
        some (rec_2020_inverse_transfer_function value b)) ∧
    (∀ XYZ : RVec3, 0 ≤ XYZ.x → XYZ.x ≤ 100 → 0 ≤ XYZ.y → XYZ.y ≤ 100 →
      0 ≤ XYZ.z → XYZ.z ≤ 100 →
      XYZ_to_OSA_UCS_opt XYZ = some (XYZ_to_OSA_UCS XYZ)) ∧
    (∀ (fmin : ℝ × ℝ × ℝ → ℝ × ℝ × ℝ) (Ljg : NdArray ℝ),
      Ljg.data.length = Ljg.shape.prod → 3 ∣ Ljg.data.length →
      (OSA_UCS_to_XYZ_nd fmin Ljg).isSome = true) := by
  refine ⟨?_, ?_, ?_, ?_⟩
  · intro v b h0 _
    unfold rec_2020_transfer_function_opt rec_2020_transfer_function
    by_cases h : v < REC_2020_CONSTANTS_beta b
    · rw [if_pos h, if_pos h]
    · rw [if_neg h, if_neg (not_lt.2 h0), if_neg h]
  · intro v b h0 _
    have hα : (1 : ℝ) < REC_2020_CONSTANTS_alpha b := by
      cases b
      · show (1 : ℝ) < 1.0993
        norm_num
      · show (1 : ℝ) < 1.099
        norm_num
    unfold rec_2020_inverse_transfer_function_opt rec_2020_inverse_transfer_function
    by_cases h : v < REC_2020_CONSTANTS_beta b
    · rw [if_pos h, if_pos h]
    · have hbase : 0 ≤ (v + (REC_2020_CONSTANTS_alpha b - 1)) / REC_2020_CONSTANTS_alpha b :=
        div_nonneg (by linarith) (by linarith)
      rw [if_neg h, if_neg (not_lt.2 hbase), if_neg h]
  · intro XYZ _ _ _ _ _ _
    rfl
  · intro fm Ljg hwf h3
    rw [OSA_UCS_to_XYZ_nd_succeeds fm Ljg hwf h3]
    rfl

/-- Witness for C5: the domain hypotheses hold at `value = 1/2`, at
`XYZ = (50, 50, 50)` and at a well-formed shape-(3,) array of three reals,
and the conversions return results there. -/
theorem conversions_total_on_valid_domain_witness :
    ((0 : ℝ) ≤ 1 / 2 ∧ (1 / 2 : ℝ) ≤ 1 ∧
      ([1, 2, 3] : List ℝ).length = ([3] : List Nat).prod ∧
      3 ∣ ([1, 2, 3] : List ℝ).length) ∧
    rec_2020_transfer_function_opt (1 / 2) true =
      some (rec_2020_transfer_function (1 / 2) true) ∧
    rec_2020_inverse_transfer_function_opt (1 / 2) true =
      some (rec_2020_inverse_transfer_function (1 / 2) true) ∧
    XYZ_to_OSA_UCS_opt ⟨50, 50, 50⟩ = some (XYZ_to_OSA_UCS ⟨50, 50, 50⟩) ∧
    (OSA_UCS_to_XYZ_nd (fun t => t)
      (⟨[3], ([1, 2, 3] : List ℝ)⟩ : NdArray ℝ)).isSome = true :=
  ⟨⟨by norm_num, by norm_num, rfl, ⟨1, rfl⟩⟩,
   conversions_total_on_valid_domain.1 (1 / 2) true (by norm_num) (by norm_num),
   conversions_total_on_valid_domain.2.1 (1 / 2) true (by norm_num) (by norm_num),
   conversions_total_on_valid_domain.2.2.1 ⟨50, 50, 50⟩
     (show (0 : ℝ) ≤ 50 by norm_num) (show (50 : ℝ) ≤ 100 by norm_num)
     (show (0 : ℝ) ≤ 50 by norm_num) (show (50 : ℝ) ≤ 100 by norm_num)
     (show (0 : ℝ) ≤ 50 by norm_num) (show (50 : ℝ) ≤ 100 by norm_num),
   conversions_total_on_valid_domain.2.2.2 (fun t => t) ⟨[3], [1, 2, 3]⟩ rfl ⟨1, rfl⟩⟩

/-- C6: the module-level dataset constants are the fields of the load-time
store `initModuleState`, and no call to any conversion function changes the
store: every state-transformer embedding returns its input store unchanged,
whatever the store and the arguments. -/
theorem module_constants_never_mutated :
    initModuleState.M_XYZ_TO_RGB_OSA_UCS = M_XYZ_TO_RGB_OSA_UCS ∧
    initModuleState.REC_2020_PRIMARIES = REC_2020_PRIMARIES ∧
    initModuleState.REC_2020_TO_XYZ_MATRIX = REC_2020_TO_XYZ_MATRIX ∧
    initModuleState.XYZ_TO_REC_2020_MATRIX = XYZ_TO_REC_2020_MATRIX ∧
    (∀ (s : ModuleState) (XYZ : RVec3), (XYZ_to_OSA_UCS_st s XYZ).1 = s) ∧
    (∀ (fmin : (RVec3 → ℝ) → RVec3 → RVec3) (s : ModuleState) (Ljg : RVec3),
      (OSA_UCS_to_XYZ_st fmin s Ljg).1 = s) ∧
    (∀ (s : ModuleState) (value : ℝ) (b : Bool),
      (rec_2020_transfer_function_st s value b).1 = s) ∧
    (∀ (s : ModuleState) (value : ℝ) (b : Bool),
      (rec_2020_inverse_transfer_function_st s value b).1 = s) :=
  ⟨rfl, rfl, rfl, rfl, fun _ _ => rfl, fun _ _ _ => rfl, fun _ _ _ => rfl, fun _ _ _ => rfl⟩

/-- C8: for every input ndarray `Ljg` whose element count is a multiple of 3
(and whose flat data matches its shape), `OSA_UCS_to_XYZ` succeeds and the
returned array has exactly the input's shape: the input is reshaped to an
(n, 3) list of triplets, each triplet is optimised independently, and the
result is reshaped back to the original shape. -/
theorem OSA_UCS_to_XYZ_preserves_shape {α : Type} (fmin : α × α × α → α × α × α)
    (Ljg : NdArray α) (hwf : Ljg.data.length = Ljg.shape.prod)
    (h3 : 3 ∣ Ljg.data.length) :
    (OSA_UCS_to_XYZ_nd fmin Ljg).map NdArray.shape = some Ljg.shape := by
  have hlen : (flatten3 ((chunk3 Ljg.data).map fmin)).length = Ljg.shape.prod := by
    rw [flatten3_length, List.length_map, ← hwf, ← chunk3_length_mul Ljg.data h3]
    ring
  simp only [OSA_UCS_to_XYZ_nd, reshape]
  rw [if_pos h3, if_pos hlen]
  rfl

/-- Witness for C8: a concrete well-formed shape-(2, 3) rational array with
six elements, with the identity standing in for the external optimiser. -/
theorem OSA_UCS_to_XYZ_preserves_shape_witness :
    (([1, 2, 3, 4, 5, 6] : List ℚ).length = ([2, 3] : List Nat).prod ∧
      3 ∣ ([1, 2, 3, 4, 5, 6] : List ℚ).length) ∧
    (OSA_UCS_to_XYZ_nd (fun t => t) ⟨[2, 3], ([1, 2, 3, 4, 5, 6] : List ℚ)⟩).map
      NdArray.shape = some [2, 3] :=
  ⟨⟨rfl, by decide⟩,
   OSA_UCS_to_XYZ_preserves_shape (fun t => t) ⟨[2, 3], [1, 2, 3, 4, 5, 6]⟩ rfl (by decide)⟩

/-- C7: the conversion functions are pure and deterministic: calling a
conversion twice in sequence with the same input yields equal outputs, and the
global store after the two calls is the store from before the first call (no
observable change to shared state). -/
theorem conversions_pure_and_deterministic :
    (∀ (s : ModuleState) (XYZ : RVec3),
      (XYZ_to_OSA_UCS_st (XYZ_to_OSA_UCS_st s XYZ).1 XYZ).2 = (XYZ_to_OSA_UCS_st s XYZ).2 ∧
      (XYZ_to_OSA_UCS_st (XYZ_to_OSA_UCS_st s XYZ).1 XYZ).1 = s) ∧
    (∀ (s : ModuleState) (value : ℝ) (b : Bool),
      (rec_2020_transfer_function_st (rec_2020_transfer_function_st s value b).1 value b).2 =
        (rec_2020_transfer_function_st s value b).2 ∧
      (rec_2020_transfer_function_st (rec_2020_transfer_function_st s value b).1 value b).1 =
        s) ∧
    (∀ (s : ModuleState) (value : ℝ) (b : Bool),
      (rec_2020_inverse_transfer_function_st
          (rec_2020_inverse_transfer_function_st s value b).1 value b).2 =
        (rec_2020_inverse_transfer_function_st s value b).2 ∧
      (rec_2020_inverse_transfer_function_st
          (rec_2020_inverse_transfer_function_st s value b).1 value b).1 = s) :=
  ⟨fun _ _ => ⟨rfl, rfl⟩, fun _ _ _ => ⟨rfl, rfl⟩, fun _ _ _ => ⟨rfl, rfl⟩⟩

/-- C9: the claim states that both context managers restore the global state
they modify, including when the body raises.  The restoration holds for
`warnings.showwarning` and for the numpy print options (first two conjuncts,
over every body, raising or not), but the code violates it for
`warnings.filters`: the save `filters = warnings.filters` aliases the very
list object that `filterwarnings` then mutates in place, so the `finally`
block reassigns the already-mutated object and the inserted `'ignore'` entry
survives the exit.  The last two conjuncts evaluate the code on a no-op body
from a state whose filter list is empty: after exit the observable
`warnings.filters` contents are the one inserted entry, not the empty
pre-entry contents. -/
theorem context_managers_restoration_status :
    (∀ (W P E A : Type) (colour_warnings_only : Bool)
      (body : PyGlobalState W P → PyGlobalState W P × Except E A) (s : PyGlobalState W P),
      (suppress_warnings colour_warnings_only body s).1.warnings_showwarning =
        s.warnings_showwarning) ∧
    (∀ (W P E A : Type) (set_options : P → P)
      (body : PyGlobalState W P → PyGlobalState W P × Except E A) (s : PyGlobalState W P),
      (numpy_print_options set_options body s).1.numpy_printoptions =
        s.numpy_printoptions) ∧
    filters_contents
        (suppress_warnings true (fun st => (st, (Except.ok () : Except Unit Unit)))
          (⟨fun _ => [], 0, (), ()⟩ : PyGlobalState Unit Unit)).1 =
      [⟨FilterAction.ignore, WarningCategory.ColourWarning⟩] ∧
    filters_contents (⟨fun _ => [], 0, (), ()⟩ : PyGlobalState Unit Unit) = [] :=
  ⟨fun _ _ _ _ _ _ _ => rfl, fun _ _ _ _ _ _ _ => rfl, rfl, rfl⟩

theorem inner_length (width padding : Nat) (text : PyStr)
    (ht : text.length + padding * 2 + 2 ≤ width) :
    (inner width padding text).length = width := by
  simp only [inner, List.length_append, List.length_replicate, List.length_cons,
    List.length_nil]
  omega

/-- C10: `message_box` returns `True`, and every line it prints is exactly
`width` characters long, provided the box is wide enough for its padding
(`width ≥ 2 * padding + 3`, the validity condition `TextWrapper` imposes on
its wrap width) and every wrapped segment of the message fits within
`width - 2 * padding - 2` characters after tab expansion. -/
theorem message_box_returns_true_and_lines_fit (wrap : PyStr → List PyStr)
    (message : PyStr) (width padding : Nat)
    (hw : padding * 2 + 3 ≤ width)
    (hseg : ∀ line ∈ pySplit '\n' message, ∀ seg ∈ wrap line,
      (expandtabs 0 seg).length ≤ width - padding * 2 - 2) :
    (message_box wrap message width padding).2 = true ∧
    ∀ l ∈ (message_box wrap message width padding).1, l.length = width := by
  constructor
  · rfl
  · intro l hl
    simp only [message_box] at hl
    rw [List.mem_cons] at hl
    rcases hl with rfl | hl
    · exact List.length_replicate width '='
    rw [List.mem_cons] at hl
    rcases hl with rfl | hl
    · exact inner_length _ _ _ (by simp only [List.length_nil]; omega)
    rw [List.mem_append] at hl
    rcases hl with hl | hl
    · rw [List.mem_map] at hl
      obtain ⟨line, hline, rfl⟩ := hl
      rw [List.mem_flatten] at hline
      obtain ⟨group, hgroup, hmem⟩ := hline
      rw [List.mem_map] at hgroup
      obtain ⟨wlist, hwlist, rfl⟩ := hgroup
      rw [List.mem_map] at hwlist
      obtain ⟨ln, hln, rfl⟩ := hwlist
      by_cases hlen : (wrap ln).length = 0
      · rw [if_pos hlen] at hmem
        rw [List.mem_singleton] at hmem
        subst hmem
        have h1 : (expandtabs 0 [' ']).length = 1 := rfl
        exact inner_length _ _ _ (by omega)
      · rw [if_neg hlen] at hmem
        have hb := hseg ln hln line hmem
        exact inner_length _ _ _ (by omega)
    · rw [List.mem_cons] at hl
      rcases hl with rfl | hl
      · exact inner_length _ _ _ (by simp only [List.length_nil]; omega)
      · rw [List.mem_singleton] at hl
        subst hl
        exact List.length_replicate width '='

/-- Witness for C10: a concrete two-character message in a box of width 9
with padding 1, the wrapper returning the line unchanged. -/
theorem message_box_witness :
    (1 * 2 + 3 ≤ 9 ∧
      ∀ line ∈ pySplit '\n' ['h', 'i'], ∀ seg ∈ [line],
        (expandtabs 0 seg).length ≤ 9 - 1 * 2 - 2) ∧
    ((message_box (fun l => [l]) ['h', 'i'] 9 1).2 = true ∧
      ∀ l ∈ (message_box (fun l => [l]) ['h', 'i'] 9 1).1, l.length = 9) :=
  ⟨⟨by decide, by decide⟩,
   message_box_returns_true_and_lines_fit (fun l => [l]) ['h', 'i'] 9 1 (by decide)
     (by decide)⟩

end Colour
